import Mathlib

/-!
Verification of the russcip wrapper layer: a shallow embedding of the
entity views (`Col` in col.rs, `Variable` in variable.rs) and of the
heuristic plugin types (`HeurTiming`, `HeurResult` in heuristic.rs),
together with theorems settling the specified properties.

The native SCIP engine is modelled as an abstract read state
(`ScipState`): one field per FFI getter the wrapper calls.  Raw
pointers are modelled as natural numbers.  A wrapper accessor becomes a
function `ScipState -> Option (result, ScipState)`, where `none` models
a Rust panic (a failed `assert!` or `unwrap`) or an undefined native
dereference; the returned state lets frame properties be stated.
-/

/-- Bit pattern of an IEEE-754 double.  The wrapper never computes with
the doubles it reads, it only passes them through, so the 64-bit word is
carried opaquely. -/
structure F64 where
  bits : Nat
deriving DecidableEq, Repr

/-- Shared-ownership handle `Rc<ScipPtr>`: `id` identifies the Rc
allocation (so `Rc::clone` produces an equal value), `raw` is the
`SCIP*` pointer stored inside the `ScipPtr`. -/
structure RcScipPtr where
  id : Nat
  raw : Nat
deriving DecidableEq, Repr

/-! ## heuristic.rs: result and timing types -/

/-- Enum `HeurResult`: the result of a primal heuristic execution. -/
inductive HeurResult where
  | FoundSol
  | NoSolFound
  | DidNotRun
  | Delayed
deriving DecidableEq, Repr

/-- Native constant `ffi::SCIP_Result_SCIP_DIDNOTRUN` (value from the
scip-sys bindings of the SCIP enum `SCIP_Result` in type_result.h). -/
def SCIP_Result_SCIP_DIDNOTRUN : Nat := 1

/-- Native constant `ffi::SCIP_Result_SCIP_DELAYED` (scip-sys binding of
SCIP type_result.h). -/
def SCIP_Result_SCIP_DELAYED : Nat := 2

/-- Native constant `ffi::SCIP_Result_SCIP_DIDNOTFIND` (scip-sys binding
of SCIP type_result.h). -/
def SCIP_Result_SCIP_DIDNOTFIND : Nat := 3

/-- Native constant `ffi::SCIP_Result_SCIP_FOUNDSOL` (scip-sys binding
of SCIP type_result.h). -/
def SCIP_Result_SCIP_FOUNDSOL : Nat := 15

/-- Impl `From<HeurResult> for SCIP_Result` in heuristic.rs. -/
def heurResultIntoScipResult : HeurResult → Nat
  | HeurResult.FoundSol => SCIP_Result_SCIP_FOUNDSOL
  | HeurResult.NoSolFound => SCIP_Result_SCIP_DIDNOTFIND
  | HeurResult.DidNotRun => SCIP_Result_SCIP_DIDNOTRUN
  | HeurResult.Delayed => SCIP_Result_SCIP_DELAYED

/-- Struct `HeurTiming(u64)`: a timing mask for heuristic execution.
The u64 payload is carried as a `Nat`; every value the wrapper builds
stays below `2 ^ 64`, and the bitwise operations below never enlarge
their operands, so no truncation point is needed. -/
structure HeurTiming where
  val : Nat
deriving DecidableEq, Repr

/-- Constant `HeurTiming::BEFORE_NODE`. -/
def HeurTiming.BEFORE_NODE : HeurTiming := ⟨0x001⟩

/-- Constant `HeurTiming::DURING_LP_LOOP`. -/
def HeurTiming.DURING_LP_LOOP : HeurTiming := ⟨0x002⟩

/-- Constant `HeurTiming::AFTER_LP_LOOP`. -/
def HeurTiming.AFTER_LP_LOOP : HeurTiming := ⟨0x004⟩

/-- Constant `HeurTiming::AFTER_LP_NODE`. -/
def HeurTiming.AFTER_LP_NODE : HeurTiming := ⟨0x008⟩

/-- Constant `HeurTiming::AFTER_PSEUDO_NODE`. -/
def HeurTiming.AFTER_PSEUDO_NODE : HeurTiming := ⟨0x010⟩

/-- Constant `HeurTiming::AFTER_LP_PLUNGE`. -/
def HeurTiming.AFTER_LP_PLUNGE : HeurTiming := ⟨0x020⟩

/-- Constant `HeurTiming::AFTER_PSEUDO_PLUNGE`. -/
def HeurTiming.AFTER_PSEUDO_PLUNGE : HeurTiming := ⟨0x040⟩

/-- Constant `HeurTiming::DURING_PRICING_LOOP`. -/
def HeurTiming.DURING_PRICING_LOOP : HeurTiming := ⟨0x080⟩

/-- Constant `HeurTiming::BEFORE_PRESOL`. -/
def HeurTiming.BEFORE_PRESOL : HeurTiming := ⟨0x100⟩

/-- Constant `HeurTiming::DURING_PRESOL_LOOP`. -/
def HeurTiming.DURING_PRESOL_LOOP : HeurTiming := ⟨0x200⟩

/-- Constant `HeurTiming::AFTER_PROP_LOOP`. -/
def HeurTiming.AFTER_PROP_LOOP : HeurTiming := ⟨0x400⟩

/-- Impl `BitOr for HeurTiming`: `HeurTiming(self.0 | rhs.0)`. -/
def HeurTiming.bitor (a b : HeurTiming) : HeurTiming := ⟨a.val ||| b.val⟩

/-- Impl `BitOrAssign for HeurTiming`: `self.0 |= rhs.0`; the value the
left-hand side holds afterwards. -/
def HeurTiming.bitor_assign (a b : HeurTiming) : HeurTiming := ⟨a.val ||| b.val⟩

/-- Impl `From<HeurTiming> for u32`: `mask.0 as u32`, a truncating cast
of the u64 payload to 32 bits. -/
def HeurTiming.intoU32 (t : HeurTiming) : Nat := t.val % 2 ^ 32

/-- Impl `From<u32> for HeurTiming`: `HeurTiming(mask as u64)`; the
widening cast is the identity on u32 values (arguments below `2 ^ 32`). -/
def HeurTiming.fromU32 (m : Nat) : HeurTiming := ⟨m⟩

/-- List of the named `HeurTiming` constants declared in heuristic.rs. -/
def HeurTiming.consts : List HeurTiming :=
  [HeurTiming.BEFORE_NODE, HeurTiming.DURING_LP_LOOP, HeurTiming.AFTER_LP_LOOP,
   HeurTiming.AFTER_LP_NODE, HeurTiming.AFTER_PSEUDO_NODE, HeurTiming.AFTER_LP_PLUNGE,
   HeurTiming.AFTER_PSEUDO_PLUNGE, HeurTiming.DURING_PRICING_LOOP,
   HeurTiming.BEFORE_PRESOL, HeurTiming.DURING_PRESOL_LOOP, HeurTiming.AFTER_PROP_LOOP]

/-- Masks obtainable by OR-combining the named constants. -/
inductive HeurTiming.BuiltByOr : HeurTiming → Prop where
  | base (t : HeurTiming) (h : t ∈ HeurTiming.consts) : HeurTiming.BuiltByOr t
  | step (a b : HeurTiming) (ha : HeurTiming.BuiltByOr a) (hb : HeurTiming.BuiltByOr b) :
      HeurTiming.BuiltByOr (a.bitor b)

/-- Every mask OR-combined from the named constants fits in 32 bits. -/
theorem HeurTiming.builtByOr_lt {t : HeurTiming} (h : HeurTiming.BuiltByOr t) :
    t.val < 2 ^ 32 := by
  induction h with
  | base t h =>
    simp only [HeurTiming.consts, List.mem_cons, List.not_mem_nil, or_false] at h
    rcases h with rfl | rfl | rfl | rfl | rfl | rfl | rfl | rfl | rfl | rfl | rfl <;> decide
  | step a b ha hb iha ihb => exact Nat.bitwise_lt_two_pow iha ihb

/-- C4: combining `HeurTiming` masks with `|` is exactly bitwise OR of
the payloads: commutative, associative, idempotent; `|=` agrees with
`|`; and `BEFORE_PRESOL | AFTER_PROP_LOOP` sets exactly the union of
the bits of 0x100 and 0x400 and no others. -/
theorem c4_heurtiming_bitor :
    (∀ a b : HeurTiming, a.bitor b = b.bitor a) ∧
    (∀ a b c : HeurTiming, (a.bitor b).bitor c = a.bitor (b.bitor c)) ∧
    (∀ a : HeurTiming, a.bitor a = a) ∧
    (∀ a b : HeurTiming, a.bitor_assign b = a.bitor b) ∧
    HeurTiming.BEFORE_PRESOL.val = 0x100 ∧
    HeurTiming.AFTER_PROP_LOOP.val = 0x400 ∧
    (∀ i : Nat,
      (HeurTiming.BEFORE_PRESOL.bitor HeurTiming.AFTER_PROP_LOOP).val.testBit i
        = (Nat.testBit 0x100 i || Nat.testBit 0x400 i)) := by
  refine ⟨?_, ?_, ?_, ?_, rfl, rfl, ?_⟩
  · intro a b
    simp [HeurTiming.bitor, Nat.lor_comm]
  · intro a b c
    simp [HeurTiming.bitor, Nat.lor_assoc]
  · intro a
    cases a with
    | mk v => simp [HeurTiming.bitor]
  · intro a b
    rfl
  · intro i
    exact Nat.testBit_lor 0x100 0x400 i

/-- C5: converting a u32 to `HeurTiming` and back is the identity on
u32 values, and converting any mask OR-combined from the named
constants to u32 and back is the identity on the mask. -/
theorem c5_heurtiming_u32_roundtrip :
    (∀ m : Nat, m < 2 ^ 32 → (HeurTiming.fromU32 m).intoU32 = m) ∧
    (∀ t : HeurTiming, HeurTiming.BuiltByOr t → HeurTiming.fromU32 t.intoU32 = t) := by
  constructor
  · intro m hm
    show m % 2 ^ 32 = m
    exact Nat.mod_eq_of_lt hm
  · intro t ht
    cases t with
    | mk v =>
      have hv : v < 2 ^ 32 := HeurTiming.builtByOr_lt ht
      show HeurTiming.mk (v % 2 ^ 32) = HeurTiming.mk v
      rw [Nat.mod_eq_of_lt hv]

/-- Witness for C5 at concrete inputs: the u32 value 5 and the mask
`BEFORE_PRESOL | AFTER_PROP_LOOP`. -/
theorem c5_witness :
    (5 < 2 ^ 32 ∧ (HeurTiming.fromU32 5).intoU32 = 5) ∧
    (HeurTiming.BuiltByOr (HeurTiming.BEFORE_PRESOL.bitor HeurTiming.AFTER_PROP_LOOP) ∧
      HeurTiming.fromU32
        (HeurTiming.BEFORE_PRESOL.bitor HeurTiming.AFTER_PROP_LOOP).intoU32
        = HeurTiming.BEFORE_PRESOL.bitor HeurTiming.AFTER_PROP_LOOP) := by
  have hb : HeurTiming.BuiltByOr (HeurTiming.BEFORE_PRESOL.bitor HeurTiming.AFTER_PROP_LOOP) :=
    HeurTiming.BuiltByOr.step _ _
      (HeurTiming.BuiltByOr.base _ (by simp [HeurTiming.consts]))
      (HeurTiming.BuiltByOr.base _ (by simp [HeurTiming.consts]))
  exact ⟨⟨by decide, c5_heurtiming_u32_roundtrip.1 5 (by decide)⟩,
    ⟨hb, c5_heurtiming_u32_roundtrip.2 _ hb⟩⟩

/-- C6: the translation of `HeurResult` into the native result
enumeration is total (a Lean function) and injective, with the four
stated variant equations. -/
theorem c6_heurresult_translation_injective :
    heurResultIntoScipResult HeurResult.FoundSol = SCIP_Result_SCIP_FOUNDSOL ∧
    heurResultIntoScipResult HeurResult.NoSolFound = SCIP_Result_SCIP_DIDNOTFIND ∧
    heurResultIntoScipResult HeurResult.DidNotRun = SCIP_Result_SCIP_DIDNOTRUN ∧
    heurResultIntoScipResult HeurResult.Delayed = SCIP_Result_SCIP_DELAYED ∧
    (∀ a b : HeurResult,
      heurResultIntoScipResult a = heurResultIntoScipResult b → a = b) := by
  refine ⟨rfl, rfl, rfl, rfl, ?_⟩
  intro a b h
  cases a <;> cases b <;>
    simp_all [heurResultIntoScipResult, SCIP_Result_SCIP_FOUNDSOL,
      SCIP_Result_SCIP_DIDNOTFIND, SCIP_Result_SCIP_DIDNOTRUN, SCIP_Result_SCIP_DELAYED]

/-- Witness for C6: the injectivity hypothesis discharged at the
concrete pair `FoundSol`, `FoundSol`. -/
theorem c6_witness : HeurResult.FoundSol = HeurResult.FoundSol :=
  c6_heurresult_translation_injective.2.2.2.2 HeurResult.FoundSol HeurResult.FoundSol rfl

/-! ## Native engine state

Each field models one FFI getter the wrapper calls, as a pure function
of the pointer argument.  Integer-valued C getters (indices, counts,
SCIP_Bool, enum codes) are `Int`; double-valued getters are `F64`.
`SCIPvarGetName` yields `none` for a name that is not valid UTF-8, in
which case the `unwrap` in the wrapper panics.  `SCIPvarGetCol` yields
`none` for a variable that has no live LP column, in which case the
dereference is undefined: that is the lifetime hazard the `is_in_lp`
guard in `Variable::col` exists to contain. -/
structure ScipState where
  SCIPcolGetIndex : Nat → Int
  SCIPcolGetObj : Nat → F64
  SCIPcolGetLb : Nat → F64
  SCIPcolGetUb : Nat → F64
  SCIPcolGetBestBound : Nat → F64
  SCIPcolGetVar : Nat → Nat
  SCIPcolGetPrimsol : Nat → F64
  SCIPcolGetMinPrimsol : Nat → F64
  SCIPcolGetMaxPrimsol : Nat → F64
  SCIPcolGetBasisStatus : Nat → Int
  SCIPcolGetVarProbindex : Nat → Int
  SCIPcolIsIntegral : Nat → Int
  SCIPcolIsRemovable : Nat → Int
  SCIPcolGetLPPos : Nat → Int
  SCIPcolGetLPDepth : Nat → Int
  SCIPcolIsInLP : Nat → Int
  SCIPcolGetNNonz : Nat → Int
  SCIPcolGetNLPNonz : Nat → Int
  SCIPcolGetRows : Nat → Nat
  rowBuffer : Nat → Nat → Nat
  SCIPcolGetVals : Nat → Nat
  valBuffer : Nat → Nat → F64
  SCIPcolGetStrongbranchNode : Nat → Int
  SCIPcolGetNStrongbranchs : Nat → Int
  SCIPcolGetAge : Nat → Int
  SCIPvarGetIndex : Nat → Int
  SCIPvarGetName : Nat → Option String
  SCIPvarGetObj : Nat → F64
  SCIPvarGetLbLocal : Nat → F64
  SCIPvarGetUbLocal : Nat → F64
  SCIPvarGetType : Nat → Int
  SCIPvarGetStatus : Nat → Int
  SCIPvarGetCol : Nat → Option Nat
  SCIPvarIsInLP : Nat → Int
  SCIPgetVarSol : Nat → Nat → F64
  SCIPvarIsDeleted : Nat → Int
  SCIPvarIsTransformed : Nat → Int
  SCIPvarIsOriginal : Nat → Int
  SCIPvarIsNegated : Nat → Int
  SCIPvarIsRemovable : Nat → Int
  SCIPvarIsTransformedOrigvar : Nat → Int
  SCIPvarIsActive : Nat → Int

/-- Computation against the native engine: either a result together
with the engine state afterwards, or `none` for a panic or an undefined
native access. -/
def M (α : Type) : Type := ScipState → Option (α × ScipState)

/-- Struct `Col` in col.rs: raw `SCIP_COL*` plus the shared engine
handle. -/
structure Col where
  raw : Nat
  scip : RcScipPtr
deriving DecidableEq, Repr

/-- Struct `Variable` in variable.rs: raw `SCIP_VAR*` plus the shared
engine handle. -/
structure Variable where
  raw : Nat
  scip : RcScipPtr
deriving DecidableEq, Repr

/-- Struct `Row` in row.rs, as constructed by `Col::rows` in col.rs:
raw `SCIP_ROW*` plus the shared engine handle. -/
structure Row where
  raw : Nat
  scip : RcScipPtr
deriving DecidableEq, Repr

/-! ## col.rs: Col accessors -/

/-- Method `Col::inner`: returns the raw pointer. -/
def Col.inner (c : Col) : M Nat := fun s => some (c.raw, s)

/-- Method `Col::index`: reads `SCIPcolGetIndex`, asserts the id is
nonnegative, casts to usize. -/
def Col.index (c : Col) : M Nat := fun s =>
  let id := s.SCIPcolGetIndex c.raw
  if 0 ≤ id then some (id.toNat, s) else none

/-- Method `Col::obj`. -/
def Col.obj (c : Col) : M F64 := fun s => some (s.SCIPcolGetObj c.raw, s)

/-- Method `Col::lb`. -/
def Col.lb (c : Col) : M F64 := fun s => some (s.SCIPcolGetLb c.raw, s)

/-- Method `Col::ub`. -/
def Col.ub (c : Col) : M F64 := fun s => some (s.SCIPcolGetUb c.raw, s)

/-- Method `Col::best_bound`. -/
def Col.best_bound (c : Col) : M F64 := fun s => some (s.SCIPcolGetBestBound c.raw, s)

/-- Method `Col::var`: builds a `Variable` from `SCIPcolGetVar` and a
clone of the shared handle. -/
def Col.var (c : Col) : M Variable := fun s =>
  some ({ raw := s.SCIPcolGetVar c.raw, scip := c.scip }, s)

/-- Method `Col::primal_sol`. -/
def Col.primal_sol (c : Col) : M F64 := fun s => some (s.SCIPcolGetPrimsol c.raw, s)

/-- Method `Col::min_primal_sol`. -/
def Col.min_primal_sol (c : Col) : M F64 := fun s => some (s.SCIPcolGetMinPrimsol c.raw, s)

/-- Method `Col::max_primal_sol`. -/
def Col.max_primal_sol (c : Col) : M F64 := fun s => some (s.SCIPcolGetMaxPrimsol c.raw, s)

/-- Enum `BasisStatus`. Modelled from the spec: the enum and its
conversion from the native basis-status code live in row.rs, which is
not among the provided sources; the spec only requires a typed value
for the basis status.  Variants and codes follow the public SCIP enum
`SCIP_BaseStat`. -/
inductive BasisStatus where
  | Lower
  | Basic
  | Upper
  | Zero
deriving DecidableEq, Repr

/-- Conversion of the native basis-status code. Modelled from the spec:
the `From` impl lives in row.rs, not among the provided sources; an
unknown code panics, following the conversion pattern of variable.rs. -/
def basisStatusFromNative (code : Int) : Option BasisStatus :=
  if code = 0 then some BasisStatus.Lower
  else if code = 1 then some BasisStatus.Basic
  else if code = 2 then some BasisStatus.Upper
  else if code = 3 then some BasisStatus.Zero
  else none

/-- Method `Col::basis_status`: reads `SCIPcolGetBasisStatus` and
converts via `.into()`. -/
def Col.basis_status (c : Col) : M BasisStatus := fun s =>
  match basisStatusFromNative (s.SCIPcolGetBasisStatus c.raw) with
  | none => none
  | some b => some (b, s)

/-- Method `Col::var_probindex`: negative probindex becomes `None`,
otherwise `Some(probindex as usize)`. -/
def Col.var_probindex (c : Col) : M (Option Nat) := fun s =>
  let probindex := s.SCIPcolGetVarProbindex c.raw
  if probindex < 0 then some (none, s) else some (some probindex.toNat, s)

/-- Method `Col::is_integral`: native SCIP_Bool compared with 0. -/
def Col.is_integral (c : Col) : M Bool := fun s =>
  some (s.SCIPcolIsIntegral c.raw != 0, s)

/-- Method `Col::is_removable`. -/
def Col.is_removable (c : Col) : M Bool := fun s =>
  some (s.SCIPcolIsRemovable c.raw != 0, s)

/-- Method `Col::lp_pos`: negative position becomes `None`. -/
def Col.lp_pos (c : Col) : M (Option Nat) := fun s =>
  let pos := s.SCIPcolGetLPPos c.raw
  if pos < 0 then some (none, s) else some (some pos.toNat, s)

/-- Method `Col::lp_depth`: negative depth becomes `None`. -/
def Col.lp_depth (c : Col) : M (Option Nat) := fun s =>
  let depth := s.SCIPcolGetLPDepth c.raw
  if depth < 0 then some (none, s) else some (some depth.toNat, s)

/-- Method `Col::is_in_lp`. -/
def Col.is_in_lp (c : Col) : M Bool := fun s =>
  some (s.SCIPcolIsInLP c.raw != 0, s)

/-- Method `Col::n_non_zeros`: reads `SCIPcolGetNNonz`, asserts
nonnegative, casts to usize. -/
def Col.n_non_zeros (c : Col) : M Nat := fun s =>
  let n_non_zeros := s.SCIPcolGetNNonz c.raw
  if 0 ≤ n_non_zeros then some (n_non_zeros.toNat, s) else none

/-- Method `Col::n_lp_non_zeros`. -/
def Col.n_lp_non_zeros (c : Col) : M Nat := fun s =>
  let n_lp_non_zeros := s.SCIPcolGetNLPNonz c.raw
  if 0 ≤ n_lp_non_zeros then some (n_lp_non_zeros.toNat, s) else none

/-- Method `Col::rows`: reads the count via `n_non_zeros`, reads the
native buffer pointer, views `n_non_zeros` entries of the buffer, and
wraps each row pointer with a clone of the shared handle. -/
def Col.rows (c : Col) : M (List Row) := fun s =>
  match Col.n_non_zeros c s with
  | none => none
  | some (n_non_zeros, s1) =>
    let rows_ptr := s1.SCIPcolGetRows c.raw
    let slice := (List.range n_non_zeros).map (fun i => s1.rowBuffer rows_ptr i)
    some (slice.map (fun row_ptr => { raw := row_ptr, scip := c.scip }), s1)

/-- Method `Col::vals`: reads the count via `n_non_zeros`, reads the
native buffer pointer, and copies `n_non_zeros` doubles out of the
buffer. -/
def Col.vals (c : Col) : M (List F64) := fun s =>
  match Col.n_non_zeros c s with
  | none => none
  | some (n_non_zeros, s1) =>
    let vals_ptr := s1.SCIPcolGetVals c.raw
    some ((List.range n_non_zeros).map (fun i => s1.valBuffer vals_ptr i), s1)

/-- Method `Col::strong_branching_node`: negative node number becomes
`None`, otherwise the SCIP_Longint value itself. -/
def Col.strong_branching_node (c : Col) : M (Option Int) := fun s =>
  let node := s.SCIPcolGetStrongbranchNode c.raw
  if node < 0 then some (none, s) else some (some node, s)

/-- Method `Col::n_strong_branches`. -/
def Col.n_strong_branches (c : Col) : M Nat := fun s =>
  let n_strong_branches := s.SCIPcolGetNStrongbranchs c.raw
  if 0 ≤ n_strong_branches then some (n_strong_branches.toNat, s) else none

/-- Method `Col::age`. -/
def Col.age (c : Col) : M Nat := fun s =>
  let age := s.SCIPcolGetAge c.raw
  if 0 ≤ age then some (age.toNat, s) else none

/-- Impl `PartialEq for Col`: `self.index() == other.index() &&
self.raw == other.raw`; both `index` calls run (and may panic) before
the conjunction. -/
def Col.eq (a b : Col) : M Bool := fun s =>
  match Col.index a s with
  | none => none
  | some (ia, s1) =>
    match Col.index b s1 with
    | none => none
    | some (ib, s2) => some ((ia == ib) && (a.raw == b.raw), s2)

/-! ## variable.rs: Variable accessors -/

/-- Enum `VarType` in variable.rs. -/
inductive VarType where
  | Continuous
  | Integer
  | Binary
  | ImplInt
deriving DecidableEq, Repr

/-- Native constant `ffi::SCIP_Vartype_SCIP_VARTYPE_BINARY` (scip-sys
binding of SCIP type_var.h). -/
def SCIP_VARTYPE_BINARY : Int := 0

/-- Native constant `ffi::SCIP_Vartype_SCIP_VARTYPE_INTEGER`. -/
def SCIP_VARTYPE_INTEGER : Int := 1

/-- Native constant `ffi::SCIP_Vartype_SCIP_VARTYPE_IMPLINT`. -/
def SCIP_VARTYPE_IMPLINT : Int := 2

/-- Native constant `ffi::SCIP_Vartype_SCIP_VARTYPE_CONTINUOUS`. -/
def SCIP_VARTYPE_CONTINUOUS : Int := 3

/-- Impl `From<ffi::SCIP_Vartype> for VarType` in variable.rs: an
unknown code panics. -/
def varTypeFromNative (var_type : Int) : Option VarType :=
  if var_type = SCIP_VARTYPE_CONTINUOUS then some VarType.Continuous
  else if var_type = SCIP_VARTYPE_INTEGER then some VarType.Integer
  else if var_type = SCIP_VARTYPE_BINARY then some VarType.Binary
  else if var_type = SCIP_VARTYPE_IMPLINT then some VarType.ImplInt
  else none

/-- Enum `VarStatus` in variable.rs. -/
inductive VarStatus where
  | Original
  | Loose
  | Column
  | Fixed
  | Aggregated
  | MultiAggregated
  | NegatedVar
deriving DecidableEq, Repr

/-- Native constants of the SCIP enum `SCIP_Varstatus` (scip-sys
bindings of SCIP type_var.h), in declaration order starting at 0:
ORIGINAL, LOOSE, COLUMN, FIXED, AGGREGATED, MULTAGGR, NEGATED. -/
def SCIP_VARSTATUS_ORIGINAL : Int := 0

/-- Native constant `ffi::SCIP_Varstatus_SCIP_VARSTATUS_LOOSE`. -/
def SCIP_VARSTATUS_LOOSE : Int := 1

/-- Native constant `ffi::SCIP_Varstatus_SCIP_VARSTATUS_COLUMN`. -/
def SCIP_VARSTATUS_COLUMN : Int := 2

/-- Native constant `ffi::SCIP_Varstatus_SCIP_VARSTATUS_FIXED`. -/
def SCIP_VARSTATUS_FIXED : Int := 3

/-- Native constant `ffi::SCIP_Varstatus_SCIP_VARSTATUS_AGGREGATED`. -/
def SCIP_VARSTATUS_AGGREGATED : Int := 4

/-- Native constant `ffi::SCIP_Varstatus_SCIP_VARSTATUS_MULTAGGR`. -/
def SCIP_VARSTATUS_MULTAGGR : Int := 5

/-- Native constant `ffi::SCIP_Varstatus_SCIP_VARSTATUS_NEGATED`. -/
def SCIP_VARSTATUS_NEGATED : Int := 6

/-- Impl `From<SCIP_Status> for VarStatus` in variable.rs: an unknown
code panics. -/
def varStatusFromNative (status : Int) : Option VarStatus :=
  if status = SCIP_VARSTATUS_ORIGINAL then some VarStatus.Original
  else if status = SCIP_VARSTATUS_LOOSE then some VarStatus.Loose
  else if status = SCIP_VARSTATUS_COLUMN then some VarStatus.Column
  else if status = SCIP_VARSTATUS_FIXED then some VarStatus.Fixed
  else if status = SCIP_VARSTATUS_AGGREGATED then some VarStatus.Aggregated
  else if status = SCIP_VARSTATUS_MULTAGGR then some VarStatus.MultiAggregated
  else if status = SCIP_VARSTATUS_NEGATED then some VarStatus.NegatedVar
  else none

/-- Method `Variable::inner`: returns the raw pointer. -/
def Variable.inner (v : Variable) : M Nat := fun s => some (v.raw, s)

/-- Method `Variable::index`: reads `SCIPvarGetIndex`, asserts the id
is nonnegative, casts to usize. -/
def Variable.index (v : Variable) : M Nat := fun s =>
  let id := s.SCIPvarGetIndex v.raw
  if 0 ≤ id then some (id.toNat, s) else none

/-- Method `Variable::name`: reads the C string; `unwrap` panics when
it is not valid UTF-8. -/
def Variable.name (v : Variable) : M String := fun s =>
  match s.SCIPvarGetName v.raw with
  | none => none
  | some n => some (n, s)

/-- Method `Variable::obj`. -/
def Variable.obj (v : Variable) : M F64 := fun s => some (s.SCIPvarGetObj v.raw, s)

/-- Method `Variable::lb`: reads `SCIPvarGetLbLocal`. -/
def Variable.lb (v : Variable) : M F64 := fun s => some (s.SCIPvarGetLbLocal v.raw, s)

/-- Method `Variable::ub`: reads `SCIPvarGetUbLocal`. -/
def Variable.ub (v : Variable) : M F64 := fun s => some (s.SCIPvarGetUbLocal v.raw, s)

/-- Method `Variable::lb_local`: reads `SCIPvarGetLbLocal`. -/
def Variable.lb_local (v : Variable) : M F64 := fun s => some (s.SCIPvarGetLbLocal v.raw, s)

/-- Method `Variable::ub_local`: reads `SCIPvarGetUbLocal`. -/
def Variable.ub_local (v : Variable) : M F64 := fun s => some (s.SCIPvarGetUbLocal v.raw, s)

/-- Method `Variable::var_type`: reads `SCIPvarGetType` and converts
via `.into()`. -/
def Variable.var_type (v : Variable) : M VarType := fun s =>
  match varTypeFromNative (s.SCIPvarGetType v.raw) with
  | none => none
  | some t => some (t, s)

/-- Method `Variable::status`: reads `SCIPvarGetStatus` and converts
via `.into()`. -/
def Variable.status (v : Variable) : M VarStatus := fun s =>
  match varStatusFromNative (s.SCIPvarGetStatus v.raw) with
  | none => none
  | some st => some (st, s)

/-- Method `Variable::is_in_lp`. -/
def Variable.is_in_lp (v : Variable) : M Bool := fun s =>
  some (s.SCIPvarIsInLP v.raw != 0, s)

/-- Method `Variable::col`: checks `is_in_lp` first; only in the
positive branch is `SCIPvarGetCol` dereferenced, and the column is
wrapped with a clone of the shared handle; otherwise `None` is
returned without touching the native column pointer. -/
def Variable.col (v : Variable) : M (Option Col) := fun s =>
  match Variable.is_in_lp v s with
  | none => none
  | some (b, s1) =>
    if b then
      match s1.SCIPvarGetCol v.raw with
      | none => none
      | some col_ptr => some (some { raw := col_ptr, scip := v.scip }, s1)
    else
      some (none, s1)

/-- Method `Variable::sol_val`: reads `SCIPgetVarSol` with the engine
pointer from the shared handle. -/
def Variable.sol_val (v : Variable) : M F64 := fun s =>
  some (s.SCIPgetVarSol v.scip.raw v.raw, s)

/-- Method `Variable::is_deleted`. -/
def Variable.is_deleted (v : Variable) : M Bool := fun s =>
  some (s.SCIPvarIsDeleted v.raw != 0, s)

/-- Method `Variable::is_transformed`. -/
def Variable.is_transformed (v : Variable) : M Bool := fun s =>
  some (s.SCIPvarIsTransformed v.raw != 0, s)

/-- Method `Variable::is_original`. -/
def Variable.is_original (v : Variable) : M Bool := fun s =>
  some (s.SCIPvarIsOriginal v.raw != 0, s)

/-- Method `Variable::is_negated`. -/
def Variable.is_negated (v : Variable) : M Bool := fun s =>
  some (s.SCIPvarIsNegated v.raw != 0, s)

/-- Method `Variable::is_removable`. -/
def Variable.is_removable (v : Variable) : M Bool := fun s =>
  some (s.SCIPvarIsRemovable v.raw != 0, s)

/-- Method `Variable::is_trans_from_orig`. -/
def Variable.is_trans_from_orig (v : Variable) : M Bool := fun s =>
  some (s.SCIPvarIsTransformedOrigvar v.raw != 0, s)

/-- Method `Variable::is_active`. -/
def Variable.is_active (v : Variable) : M Bool := fun s =>
  some (s.SCIPvarIsActive v.raw != 0, s)

/-- Impl `PartialEq for Variable`: `self.index() == other.index() &&
self.raw == other.raw`; both `index` calls run (and may panic) before
the conjunction. -/
def Variable.eq (a b : Variable) : M Bool := fun s =>
  match Variable.index a s with
  | none => none
  | some (ia, s1) =>
    match Variable.index b s1 with
    | none => none
    | some (ib, s2) => some ((ia == ib) && (a.raw == b.raw), s2)

/-! ## Frame property vocabulary and test fixtures -/

/-- Read-only computation: it either panics or returns a result with
the engine state exactly as it was. -/
def readOnly {α : Type} (m : M α) : Prop :=
  ∀ s : ScipState, m s = none ∨ ∃ r, m s = some (r, s)

/-- Helper: a computation that always returns `some (f s, s)` is
read-only. -/
theorem readOnly_total {α : Type} {m : M α} (f : ScipState → α)
    (h : ∀ s, m s = some (f s, s)) : readOnly m :=
  fun s => Or.inr ⟨f s, h s⟩

/-- Concrete engine state used to instantiate witnesses. -/
def testState : ScipState where
  SCIPcolGetIndex := fun p => Int.ofNat p
  SCIPcolGetObj := fun _ => ⟨0⟩
  SCIPcolGetLb := fun _ => ⟨0⟩
  SCIPcolGetUb := fun _ => ⟨0⟩
  SCIPcolGetBestBound := fun _ => ⟨0⟩
  SCIPcolGetVar := fun _ => 0
  SCIPcolGetPrimsol := fun _ => ⟨0⟩
  SCIPcolGetMinPrimsol := fun _ => ⟨0⟩
  SCIPcolGetMaxPrimsol := fun _ => ⟨0⟩
  SCIPcolGetBasisStatus := fun _ => 1
  SCIPcolGetVarProbindex := fun _ => 0
  SCIPcolIsIntegral := fun _ => 1
  SCIPcolIsRemovable := fun _ => 0
  SCIPcolGetLPPos := fun _ => 0
  SCIPcolGetLPDepth := fun _ => 0
  SCIPcolIsInLP := fun _ => 1
  SCIPcolGetNNonz := fun _ => 2
  SCIPcolGetNLPNonz := fun _ => 2
  SCIPcolGetRows := fun _ => 0
  rowBuffer := fun _ i => i
  SCIPcolGetVals := fun _ => 0
  valBuffer := fun _ _ => ⟨0⟩
  SCIPcolGetStrongbranchNode := fun _ => -1
  SCIPcolGetNStrongbranchs := fun _ => 0
  SCIPcolGetAge := fun _ => 0
  SCIPvarGetIndex := fun p => Int.ofNat p
  SCIPvarGetName := fun _ => some "x"
  SCIPvarGetObj := fun _ => ⟨0⟩
  SCIPvarGetLbLocal := fun _ => ⟨0⟩
  SCIPvarGetUbLocal := fun _ => ⟨0⟩
  SCIPvarGetType := fun _ => 3
  SCIPvarGetStatus := fun _ => 2
  SCIPvarGetCol := fun _ => some 3
  SCIPvarIsInLP := fun _ => 1
  SCIPgetVarSol := fun _ _ => ⟨0⟩
  SCIPvarIsDeleted := fun _ => 0
  SCIPvarIsTransformed := fun _ => 0
  SCIPvarIsOriginal := fun _ => 1
  SCIPvarIsNegated := fun _ => 0
  SCIPvarIsRemovable := fun _ => 0
  SCIPvarIsTransformedOrigvar := fun _ => 0
  SCIPvarIsActive := fun _ => 1

/-- Concrete column view used to instantiate witnesses. -/
def testCol : Col := { raw := 1, scip := { id := 0, raw := 0 } }

/-- Second concrete column view with a different raw pointer. -/
def testCol2 : Col := { raw := 2, scip := { id := 0, raw := 0 } }

/-- Concrete variable view used to instantiate witnesses. -/
def testVar : Variable := { raw := 2, scip := { id := 0, raw := 0 } }

/-- Second concrete variable view with a different raw pointer. -/
def testVar2 : Variable := { raw := 3, scip := { id := 0, raw := 0 } }

/-! ## Claims about the entity views -/

/-- C9: `Variable::lb` and `Variable::lb_local` read the same native
local lower bound and are extensionally equal, and likewise
`Variable::ub` and `Variable::ub_local` for the local upper bound. -/
theorem c9_lb_ub_local_equal (v : Variable) (s : ScipState) :
    Variable.lb v s = some (s.SCIPvarGetLbLocal v.raw, s) ∧
    Variable.lb_local v s = some (s.SCIPvarGetLbLocal v.raw, s) ∧
    Variable.ub v s = some (s.SCIPvarGetUbLocal v.raw, s) ∧
    Variable.ub_local v s = some (s.SCIPvarGetUbLocal v.raw, s) ∧
    Variable.lb v = Variable.lb_local v ∧
    Variable.ub v = Variable.ub_local v :=
  ⟨rfl, rfl, rfl, rfl, rfl, rfl⟩

/-- C2: each optional-valued Col accessor returns `None` exactly when
the native getter reports the negative sentinel, and otherwise wraps
the native value itself (numerically unchanged) in `Some`. -/
theorem c2_optional_accessors_sentinel (s : ScipState) (c : Col) :
    (Col.var_probindex c s = some (none, s) ↔ s.SCIPcolGetVarProbindex c.raw < 0) ∧
    (0 ≤ s.SCIPcolGetVarProbindex c.raw →
      Col.var_probindex c s = some (some (s.SCIPcolGetVarProbindex c.raw).toNat, s) ∧
      ((s.SCIPcolGetVarProbindex c.raw).toNat : Int) = s.SCIPcolGetVarProbindex c.raw) ∧
    (Col.lp_pos c s = some (none, s) ↔ s.SCIPcolGetLPPos c.raw < 0) ∧
    (0 ≤ s.SCIPcolGetLPPos c.raw →
      Col.lp_pos c s = some (some (s.SCIPcolGetLPPos c.raw).toNat, s) ∧
      ((s.SCIPcolGetLPPos c.raw).toNat : Int) = s.SCIPcolGetLPPos c.raw) ∧
    (Col.lp_depth c s = some (none, s) ↔ s.SCIPcolGetLPDepth c.raw < 0) ∧
    (0 ≤ s.SCIPcolGetLPDepth c.raw →
      Col.lp_depth c s = some (some (s.SCIPcolGetLPDepth c.raw).toNat, s) ∧
      ((s.SCIPcolGetLPDepth c.raw).toNat : Int) = s.SCIPcolGetLPDepth c.raw) ∧
    (Col.strong_branching_node c s = some (none, s) ↔
      s.SCIPcolGetStrongbranchNode c.raw < 0) ∧
    (0 ≤ s.SCIPcolGetStrongbranchNode c.raw →
      Col.strong_branching_node c s
        = some (some (s.SCIPcolGetStrongbranchNode c.raw), s)) := by
  refine ⟨?_, ?_, ?_, ?_, ?_, ?_, ?_, ?_⟩
  · by_cases h : s.SCIPcolGetVarProbindex c.raw < 0 <;> simp [Col.var_probindex, h]
  · intro h0
    have h1 : ¬ s.SCIPcolGetVarProbindex c.raw < 0 := not_lt.mpr h0
    exact ⟨by simp [Col.var_probindex, h1], Int.toNat_of_nonneg h0⟩
  · by_cases h : s.SCIPcolGetLPPos c.raw < 0 <;> simp [Col.lp_pos, h]
  · intro h0
    have h1 : ¬ s.SCIPcolGetLPPos c.raw < 0 := not_lt.mpr h0
    exact ⟨by simp [Col.lp_pos, h1], Int.toNat_of_nonneg h0⟩
  · by_cases h : s.SCIPcolGetLPDepth c.raw < 0 <;> simp [Col.lp_depth, h]
  · intro h0
    have h1 : ¬ s.SCIPcolGetLPDepth c.raw < 0 := not_lt.mpr h0
    exact ⟨by simp [Col.lp_depth, h1], Int.toNat_of_nonneg h0⟩
  · by_cases h : s.SCIPcolGetStrongbranchNode c.raw < 0 <;>
      simp [Col.strong_branching_node, h]
  · intro h0
    have h1 : ¬ s.SCIPcolGetStrongbranchNode c.raw < 0 := not_lt.mpr h0
    simp [Col.strong_branching_node, h1]

/-- Witness for C2 at the concrete state `testState` and column
`testCol`: the three in-LP accessors yield `Some 0` and the strong
branching node, whose native value is the sentinel -1, yields `None`. -/
theorem c2_witness :
    Col.var_probindex testCol testState = some (some 0, testState) ∧
    Col.lp_pos testCol testState = some (some 0, testState) ∧
    Col.lp_depth testCol testState = some (some 0, testState) ∧
    Col.strong_branching_node testCol testState = some (none, testState) :=
  ⟨((c2_optional_accessors_sentinel testState testCol).2.1 (by decide)).1,
   ((c2_optional_accessors_sentinel testState testCol).2.2.2.1 (by decide)).1,
   ((c2_optional_accessors_sentinel testState testCol).2.2.2.2.2.1 (by decide)).1,
   (c2_optional_accessors_sentinel testState testCol).2.2.2.2.2.2.1.mpr (by decide)⟩

/-- C10: each unsigned-count accessor checks the sign of the native
value before the cast: a nonnegative native value is returned cast to
usize (numerically unchanged), and a negative native value panics
instead of wrapping around. -/
theorem c10_unsigned_casts_guarded (s : ScipState) (c : Col) (v : Variable) :
    ((0 ≤ s.SCIPcolGetIndex c.raw →
        Col.index c s = some ((s.SCIPcolGetIndex c.raw).toNat, s) ∧
        ((s.SCIPcolGetIndex c.raw).toNat : Int) = s.SCIPcolGetIndex c.raw) ∧
      (s.SCIPcolGetIndex c.raw < 0 → Col.index c s = none)) ∧
    ((0 ≤ s.SCIPcolGetNNonz c.raw →
        Col.n_non_zeros c s = some ((s.SCIPcolGetNNonz c.raw).toNat, s) ∧
        ((s.SCIPcolGetNNonz c.raw).toNat : Int) = s.SCIPcolGetNNonz c.raw) ∧
      (s.SCIPcolGetNNonz c.raw < 0 → Col.n_non_zeros c s = none)) ∧
    ((0 ≤ s.SCIPcolGetNLPNonz c.raw →
        Col.n_lp_non_zeros c s = some ((s.SCIPcolGetNLPNonz c.raw).toNat, s) ∧
        ((s.SCIPcolGetNLPNonz c.raw).toNat : Int) = s.SCIPcolGetNLPNonz c.raw) ∧
      (s.SCIPcolGetNLPNonz c.raw < 0 → Col.n_lp_non_zeros c s = none)) ∧
    ((0 ≤ s.SCIPcolGetNStrongbranchs c.raw →
        Col.n_strong_branches c s = some ((s.SCIPcolGetNStrongbranchs c.raw).toNat, s) ∧
        ((s.SCIPcolGetNStrongbranchs c.raw).toNat : Int) = s.SCIPcolGetNStrongbranchs c.raw) ∧
      (s.SCIPcolGetNStrongbranchs c.raw < 0 → Col.n_strong_branches c s = none)) ∧
    ((0 ≤ s.SCIPcolGetAge c.raw →
        Col.age c s = some ((s.SCIPcolGetAge c.raw).toNat, s) ∧
        ((s.SCIPcolGetAge c.raw).toNat : Int) = s.SCIPcolGetAge c.raw) ∧
      (s.SCIPcolGetAge c.raw < 0 → Col.age c s = none)) ∧
    ((0 ≤ s.SCIPvarGetIndex v.raw →
        Variable.index v s = some ((s.SCIPvarGetIndex v.raw).toNat, s) ∧
        ((s.SCIPvarGetIndex v.raw).toNat : Int) = s.SCIPvarGetIndex v.raw) ∧
      (s.SCIPvarGetIndex v.raw < 0 → Variable.index v s = none)) := by
  refine ⟨⟨?_, ?_⟩, ⟨?_, ?_⟩, ⟨?_, ?_⟩, ⟨?_, ?_⟩, ⟨?_, ?_⟩, ⟨?_, ?_⟩⟩
  · intro h
    exact ⟨by simp [Col.index, h], Int.toNat_of_nonneg h⟩
  · intro h
    simp [Col.index, not_le.mpr h]
  · intro h
    exact ⟨by simp [Col.n_non_zeros, h], Int.toNat_of_nonneg h⟩
  · intro h
    simp [Col.n_non_zeros, not_le.mpr h]
  · intro h
    exact ⟨by simp [Col.n_lp_non_zeros, h], Int.toNat_of_nonneg h⟩
  · intro h
    simp [Col.n_lp_non_zeros, not_le.mpr h]
  · intro h
    exact ⟨by simp [Col.n_strong_branches, h], Int.toNat_of_nonneg h⟩
  · intro h
    simp [Col.n_strong_branches, not_le.mpr h]
  · intro h
    exact ⟨by simp [Col.age, h], Int.toNat_of_nonneg h⟩
  · intro h
    simp [Col.age, not_le.mpr h]
  · intro h
    exact ⟨by simp [Variable.index, h], Int.toNat_of_nonneg h⟩
  · intro h
    simp [Variable.index, not_le.mpr h]

/-- Witness for C10 at `testState`, `testCol`, `testVar`: every native
count is nonnegative there and each accessor returns the cast value. -/
theorem c10_witness :
    Col.index testCol testState = some (1, testState) ∧
    Col.n_non_zeros testCol testState = some (2, testState) ∧
    Col.n_lp_non_zeros testCol testState = some (2, testState) ∧
    Col.n_strong_branches testCol testState = some (0, testState) ∧
    Col.age testCol testState = some (0, testState) ∧
    Variable.index testVar testState = some (2, testState) :=
  ⟨((c10_unsigned_casts_guarded testState testCol testVar).1.1 (by decide)).1,
   ((c10_unsigned_casts_guarded testState testCol testVar).2.1.1 (by decide)).1,
   ((c10_unsigned_casts_guarded testState testCol testVar).2.2.1.1 (by decide)).1,
   ((c10_unsigned_casts_guarded testState testCol testVar).2.2.2.1.1 (by decide)).1,
   ((c10_unsigned_casts_guarded testState testCol testVar).2.2.2.2.1.1 (by decide)).1,
   ((c10_unsigned_casts_guarded testState testCol testVar).2.2.2.2.2.1 (by decide)).1⟩

/-- C3: view equality is exactly raw-pointer identity.  When neither
`index` call panics, `PartialEq` on `Col` (and on `Variable`) returns
precisely whether the raw pointers coincide: the extra index comparison
never changes the outcome, and no other field (in particular not the
shared handle) takes part. -/
theorem c3_eq_is_pointer_identity (s : ScipState) (a b : Col) (v w : Variable)
    (ha : 0 ≤ s.SCIPcolGetIndex a.raw) (hb : 0 ≤ s.SCIPcolGetIndex b.raw)
    (hv : 0 ≤ s.SCIPvarGetIndex v.raw) (hw : 0 ≤ s.SCIPvarGetIndex w.raw) :
    Col.eq a b s = some (decide (a.raw = b.raw), s) ∧
    Variable.eq v w s = some (decide (v.raw = w.raw), s) := by
  constructor
  · by_cases hr : a.raw = b.raw
    · simp [Col.eq, Col.index, ha, hb, hr]
    · simp [Col.eq, Col.index, ha, hb, hr]
  · by_cases hr : v.raw = w.raw
    · simp [Variable.eq, Variable.index, hv, hw, hr]
    · simp [Variable.eq, Variable.index, hv, hw, hr]

/-- Witness for C3 at `testState` with two distinct columns and two
distinct variables: equality comes out false exactly as pointer
identity does. -/
theorem c3_witness :
    Col.eq testCol testCol2 testState = some (false, testState) ∧
    Variable.eq testVar testVar2 testState = some (false, testState) :=
  c3_eq_is_pointer_identity testState testCol testCol2 testVar testVar2
    (by decide) (by decide) (by decide) (by decide)

/-- C1: `Variable::col` yields a present column exactly when
`is_in_lp` is true.  The guard is checked before the native column
pointer is dereferenced: when `is_in_lp` is false the method returns
`None` with no constraint at all on the native column lookup. -/
theorem c1_variable_col_present_iff_in_lp (s : ScipState) (v : Variable)
    (hderef : s.SCIPvarIsInLP v.raw ≠ 0 → (s.SCIPvarGetCol v.raw).isSome) :
    (s.SCIPvarIsInLP v.raw ≠ 0 →
      ∃ cp, s.SCIPvarGetCol v.raw = some cp ∧
        Variable.col v s = some (some { raw := cp, scip := v.scip }, s)) ∧
    (s.SCIPvarIsInLP v.raw = 0 → Variable.col v s = some (none, s)) ∧
    (∀ r s', Variable.col v s = some (r, s') →
      (r.isSome ↔ s.SCIPvarIsInLP v.raw ≠ 0)) := by
  by_cases h : s.SCIPvarIsInLP v.raw = 0
  · have hcol : Variable.col v s = some (none, s) := by
      simp [Variable.col, Variable.is_in_lp, h]
    refine ⟨fun hn => absurd h hn, fun _ => hcol, ?_⟩
    intro r s' hr
    rw [hcol] at hr
    have hrn : r = none := by
      have := (Option.some.injEq _ _).mp hr.symm
      exact (Prod.mk.injEq _ _ _ _).mp this |>.1
    simp [hrn, h]
  · obtain ⟨cp, hcp⟩ := Option.isSome_iff_exists.mp (hderef h)
    have hcol : Variable.col v s = some (some { raw := cp, scip := v.scip }, s) := by
      simp [Variable.col, Variable.is_in_lp, h, hcp]
    refine ⟨fun _ => ⟨cp, hcp, hcol⟩, fun h0 => absurd h0 h, ?_⟩
    intro r s' hr
    rw [hcol] at hr
    have hrs : r = some { raw := cp, scip := v.scip } := by
      have := (Option.some.injEq _ _).mp hr.symm
      exact (Prod.mk.injEq _ _ _ _).mp this |>.1
    simp [hrs, h]

/-- Witness for C1 at `testState` and `testVar`: the variable is in
the LP there, so a present column with the shared handle of the
variable is returned. -/
theorem c1_witness :
    (testState.SCIPvarIsInLP testVar.raw ≠ 0 →
      ∃ cp, testState.SCIPvarGetCol testVar.raw = some cp ∧
        Variable.col testVar testState
          = some (some { raw := cp, scip := testVar.scip }, testState)) ∧
    (testState.SCIPvarIsInLP testVar.raw = 0 →
      Variable.col testVar testState = some (none, testState)) ∧
    (∀ r s', Variable.col testVar testState = some (r, s') →
      (r.isSome ↔ testState.SCIPvarIsInLP testVar.raw ≠ 0)) :=
  c1_variable_col_present_iff_in_lp testState testVar (by decide)

/-- C8: `Col::rows` and `Col::vals` each return a sequence whose
length is exactly the value the companion count accessor
`n_non_zeros` reads at the start of the call, and every returned row
carries the same shared engine handle as the column it came from. -/
theorem c8_rows_vals_length (s : ScipState) (c : Col)
    (h : 0 ≤ s.SCIPcolGetNNonz c.raw) :
    Col.n_non_zeros c s = some ((s.SCIPcolGetNNonz c.raw).toNat, s) ∧
    (∃ rs : List Row, Col.rows c s = some (rs, s) ∧
      rs.length = (s.SCIPcolGetNNonz c.raw).toNat ∧
      ∀ r ∈ rs, r.scip = c.scip) ∧
    (∃ vs : List F64, Col.vals c s = some (vs, s) ∧
      vs.length = (s.SCIPcolGetNNonz c.raw).toNat) := by
  refine ⟨by simp [Col.n_non_zeros, h], ⟨?_, ?_, ?_, ?_⟩, ⟨?_, ?_, ?_⟩⟩
  · exact ((List.range (s.SCIPcolGetNNonz c.raw).toNat).map
      (fun i => s.rowBuffer (s.SCIPcolGetRows c.raw) i)).map
      (fun row_ptr => { raw := row_ptr, scip := c.scip })
  · simp [Col.rows, Col.n_non_zeros, h]
  · simp
  · intro r hr
    simp only [List.mem_map] at hr
    obtain ⟨ptr, _, rfl⟩ := hr
    rfl
  · exact (List.range (s.SCIPcolGetNNonz c.raw).toNat).map
      (fun i => s.valBuffer (s.SCIPcolGetVals c.raw) i)
  · simp [Col.vals, Col.n_non_zeros, h]
  · simp

/-- Witness for C8 at `testState` and `testCol`: the native count is 2
and both sequences have length 2, the rows sharing the handle of the
column. -/
theorem c8_witness :
    (0 : Int) ≤ testState.SCIPcolGetNNonz testCol.raw ∧
    (Col.n_non_zeros testCol testState = some (2, testState) ∧
      (∃ rs : List Row, Col.rows testCol testState = some (rs, testState) ∧
        rs.length = 2 ∧ ∀ r ∈ rs, r.scip = testCol.scip) ∧
      (∃ vs : List F64, Col.vals testCol testState = some (vs, testState) ∧
        vs.length = 2)) :=
  ⟨by decide, c8_rows_vals_length testState testCol (by decide)⟩

/-- C7: every accessor on a `Col` or `Variable` view is read-only: for
every engine state it either panics or returns its value with the
engine state unchanged — no accessor mutates the problem, LP, or tree
state. -/
theorem c7_accessors_read_only (c d : Col) (v w : Variable) :
    readOnly (Col.inner c) ∧ readOnly (Col.index c) ∧ readOnly (Col.obj c) ∧
    readOnly (Col.lb c) ∧ readOnly (Col.ub c) ∧ readOnly (Col.best_bound c) ∧
    readOnly (Col.var c) ∧ readOnly (Col.primal_sol c) ∧
    readOnly (Col.min_primal_sol c) ∧ readOnly (Col.max_primal_sol c) ∧
    readOnly (Col.basis_status c) ∧ readOnly (Col.var_probindex c) ∧
    readOnly (Col.is_integral c) ∧ readOnly (Col.is_removable c) ∧
    readOnly (Col.lp_pos c) ∧ readOnly (Col.lp_depth c) ∧
    readOnly (Col.is_in_lp c) ∧ readOnly (Col.n_non_zeros c) ∧
    readOnly (Col.n_lp_non_zeros c) ∧ readOnly (Col.rows c) ∧
    readOnly (Col.vals c) ∧ readOnly (Col.strong_branching_node c) ∧
    readOnly (Col.n_strong_branches c) ∧ readOnly (Col.age c) ∧
    readOnly (Col.eq c d) ∧
    readOnly (Variable.inner v) ∧ readOnly (Variable.index v) ∧
    readOnly (Variable.name v) ∧ readOnly (Variable.obj v) ∧
    readOnly (Variable.lb v) ∧ readOnly (Variable.ub v) ∧
    readOnly (Variable.lb_local v) ∧ readOnly (Variable.ub_local v) ∧
    readOnly (Variable.var_type v) ∧ readOnly (Variable.status v) ∧
    readOnly (Variable.col v) ∧ readOnly (Variable.is_in_lp v) ∧
    readOnly (Variable.sol_val v) ∧ readOnly (Variable.is_deleted v) ∧
    readOnly (Variable.is_transformed v) ∧ readOnly (Variable.is_original v) ∧
    readOnly (Variable.is_negated v) ∧ readOnly (Variable.is_removable v) ∧
    readOnly (Variable.is_trans_from_orig v) ∧ readOnly (Variable.is_active v) ∧
    readOnly (Variable.eq v w) := by
  refine ⟨?_, ?_, ?_, ?_, ?_, ?_, ?_, ?_, ?_, ?_, ?_, ?_, ?_, ?_, ?_, ?_, ?_, ?_, ?_,
    ?_, ?_, ?_, ?_, ?_, ?_, ?_, ?_, ?_, ?_, ?_, ?_, ?_, ?_, ?_, ?_, ?_, ?_, ?_, ?_,
    ?_, ?_, ?_, ?_, ?_, ?_, ?_⟩
  · exact readOnly_total _ fun _ => rfl
  · intro s
    by_cases h : 0 ≤ s.SCIPcolGetIndex c.raw
    · exact Or.inr ⟨_, by simp [Col.index, h]; rfl⟩
    · exact Or.inl (by simp [Col.index, h])
  · exact readOnly_total _ fun _ => rfl
  · exact readOnly_total _ fun _ => rfl
  · exact readOnly_total _ fun _ => rfl
  · exact readOnly_total _ fun _ => rfl
  · exact readOnly_total _ fun _ => rfl
  · exact readOnly_total _ fun _ => rfl
  · exact readOnly_total _ fun _ => rfl
  · exact readOnly_total _ fun _ => rfl
  · intro s
    cases hb : basisStatusFromNative (s.SCIPcolGetBasisStatus c.raw) with
    | none => exact Or.inl (by simp [Col.basis_status, hb])
    | some b => exact Or.inr ⟨b, by simp [Col.basis_status, hb]⟩
  · intro s
    by_cases h : s.SCIPcolGetVarProbindex c.raw < 0
    · exact Or.inr ⟨_, by simp [Col.var_probindex, h]; rfl⟩
    · exact Or.inr ⟨_, by simp [Col.var_probindex, h]; rfl⟩
  · exact readOnly_total _ fun _ => rfl
  · exact readOnly_total _ fun _ => rfl
  · intro s
    by_cases h : s.SCIPcolGetLPPos c.raw < 0
    · exact Or.inr ⟨_, by simp [Col.lp_pos, h]; rfl⟩
    · exact Or.inr ⟨_, by simp [Col.lp_pos, h]; rfl⟩
  · intro s
    by_cases h : s.SCIPcolGetLPDepth c.raw < 0
    · exact Or.inr ⟨_, by simp [Col.lp_depth, h]; rfl⟩
    · exact Or.inr ⟨_, by simp [Col.lp_depth, h]; rfl⟩
  · exact readOnly_total _ fun _ => rfl
  · intro s
    by_cases h : 0 ≤ s.SCIPcolGetNNonz c.raw
    · exact Or.inr ⟨_, by simp [Col.n_non_zeros, h]; rfl⟩
    · exact Or.inl (by simp [Col.n_non_zeros, h])
  · intro s
    by_cases h : 0 ≤ s.SCIPcolGetNLPNonz c.raw
    · exact Or.inr ⟨_, by simp [Col.n_lp_non_zeros, h]; rfl⟩
    · exact Or.inl (by simp [Col.n_lp_non_zeros, h])
  · intro s
    by_cases h : 0 ≤ s.SCIPcolGetNNonz c.raw
    · exact Or.inr ⟨_, by simp [Col.rows, Col.n_non_zeros, h]; rfl⟩
    · exact Or.inl (by simp [Col.rows, Col.n_non_zeros, h])
  · intro s
    by_cases h : 0 ≤ s.SCIPcolGetNNonz c.raw
    · exact Or.inr ⟨_, by simp [Col.vals, Col.n_non_zeros, h]; rfl⟩
    · exact Or.inl (by simp [Col.vals, Col.n_non_zeros, h])
  · intro s
    by_cases h : s.SCIPcolGetStrongbranchNode c.raw < 0
    · exact Or.inr ⟨_, by simp [Col.strong_branching_node, h]; rfl⟩
    · exact Or.inr ⟨_, by simp [Col.strong_branching_node, h]; rfl⟩
  · intro s
    by_cases h : 0 ≤ s.SCIPcolGetNStrongbranchs c.raw
    · exact Or.inr ⟨_, by simp [Col.n_strong_branches, h]; rfl⟩
    · exact Or.inl (by simp [Col.n_strong_branches, h])
  · intro s
    by_cases h : 0 ≤ s.SCIPcolGetAge c.raw
    · exact Or.inr ⟨_, by simp [Col.age, h]; rfl⟩
    · exact Or.inl (by simp [Col.age, h])
  · intro s
    by_cases h1 : 0 ≤ s.SCIPcolGetIndex c.raw
    · by_cases h2 : 0 ≤ s.SCIPcolGetIndex d.raw
      · exact Or.inr ⟨_, by simp [Col.eq, Col.index, h1, h2]; rfl⟩
      · exact Or.inl (by simp [Col.eq, Col.index, h1, h2])
    · exact Or.inl (by simp [Col.eq, Col.index, h1])
  · exact readOnly_total _ fun _ => rfl
  · intro s
    by_cases h : 0 ≤ s.SCIPvarGetIndex v.raw
    · exact Or.inr ⟨_, by simp [Variable.index, h]; rfl⟩
    · exact Or.inl (by simp [Variable.index, h])
  · intro s
    cases hn : s.SCIPvarGetName v.raw with
    | none => exact Or.inl (by simp [Variable.name, hn])
    | some n => exact Or.inr ⟨n, by simp [Variable.name, hn]⟩
  · exact readOnly_total _ fun _ => rfl
  · exact readOnly_total _ fun _ => rfl
  · exact readOnly_total _ fun _ => rfl
  · exact readOnly_total _ fun _ => rfl
  · exact readOnly_total _ fun _ => rfl
  · intro s
    cases ht : varTypeFromNative (s.SCIPvarGetType v.raw) with
    | none => exact Or.inl (by simp [Variable.var_type, ht])
    | some t => exact Or.inr ⟨t, by simp [Variable.var_type, ht]⟩
  · intro s
    cases hst : varStatusFromNative (s.SCIPvarGetStatus v.raw) with
    | none => exact Or.inl (by simp [Variable.status, hst])
    | some st => exact Or.inr ⟨st, by simp [Variable.status, hst]⟩
  · intro s
    by_cases h : s.SCIPvarIsInLP v.raw = 0
    · exact Or.inr ⟨_, by simp [Variable.col, Variable.is_in_lp, h]; rfl⟩
    · cases hcp : s.SCIPvarGetCol v.raw with
      | none => exact Or.inl (by simp [Variable.col, Variable.is_in_lp, h, hcp])
      | some cp =>
        exact Or.inr ⟨_, by simp [Variable.col, Variable.is_in_lp, h, hcp]; rfl⟩
  · exact readOnly_total _ fun _ => rfl
  · exact readOnly_total _ fun _ => rfl
  · exact readOnly_total _ fun _ => rfl
  · exact readOnly_total _ fun _ => rfl
  · exact readOnly_total _ fun _ => rfl
  · exact readOnly_total _ fun _ => rfl
  · exact readOnly_total _ fun _ => rfl
  · exact readOnly_total _ fun _ => rfl
  · exact readOnly_total _ fun _ => rfl
  · intro s
    by_cases h1 : 0 ≤ s.SCIPvarGetIndex v.raw
    · by_cases h2 : 0 ≤ s.SCIPvarGetIndex w.raw
      · exact Or.inr ⟨_, by simp [Variable.eq, Variable.index, h1, h2]; rfl⟩
      · exact Or.inl (by simp [Variable.eq, Variable.index, h1, h2])
    · exact Or.inl (by simp [Variable.eq, Variable.index, h1])

/-- Witness for C7 at concrete views and the concrete state: the index
accessor read leaves `testState` unchanged. -/
theorem c7_witness :
    Col.index testCol testState = none ∨
      ∃ r, Col.index testCol testState = some (r, testState) :=
  (c7_accessors_read_only testCol testCol2 testVar testVar2).2.1 testState
